import Mathlib

/-!
Shallow embedding of `src/render.rs` from `weechat-matrix-rs`: rendering of
chat events into display lines for a terminal UI.

Modelling choices: Rust `Option<T>` becomes Lean `Option T`; the trait-based
capability dispatch (`HasFormattedBody`, `HasUrlOrFile`) becomes type classes
with the same method names; `resolve_url`, which in the source calls
`Option::unwrap` and therefore aborts loudly when both locator fields are
absent, is embedded as an `Option String`-valued function where a `none`
result models that fatal failure.  `MessageEvent.render` consequently returns
`Option String`, with `none` exactly when a media kind hits the missing
locator case; the other two `render` implementations are total and return
`String` directly, as in the source.
-/

namespace Render

/-- Membership states carried by a member event (the closed enum used by the
renderer: Join, Leave, Ban, Invite, Knock). -/
inductive MembershipState where
  | Join
  | Leave
  | Ban
  | Invite
  | Knock

/-- Text message content: mandatory plain `body`, optional `formatted_body`. -/
structure TextMessageEventContent where
  body : String
  formatted_body : Option String

/-- Emote message content: mandatory plain `body`, optional `formatted_body`. -/
structure EmoteMessageEventContent where
  body : String
  formatted_body : Option String

/-- Notice message content: mandatory plain `body`, optional `formatted_body`. -/
structure NoticeMessageEventContent where
  body : String
  formatted_body : Option String

/-- An encrypted file attachment.  The renderer only ever reads the inner
locator `url` (`f.url.as_str()` in the source); the remaining encryption
metadata is opaque to this module and omitted. -/
structure EncryptedFile where
  url : String

/-- Audio message content: `body`, optional direct `url`, optional encrypted
`file`. -/
structure AudioMessageEventContent where
  body : String
  url : Option String
  file : Option EncryptedFile

/-- File message content: `body`, optional direct `url`, optional encrypted
`file`. -/
structure FileMessageEventContent where
  body : String
  url : Option String
  file : Option EncryptedFile

/-- Image message content: `body`, optional direct `url`, optional encrypted
`file`. -/
structure ImageMessageEventContent where
  body : String
  url : Option String
  file : Option EncryptedFile

/-- Video message content: `body`, optional direct `url`, optional encrypted
`file`. -/
structure VideoMessageEventContent where
  body : String
  url : Option String
  file : Option EncryptedFile

/-- Location message content: `body` and a mandatory `geo_uri`. -/
structure LocationMessageEventContent where
  body : String
  geo_uri : String

/-- Server notice content: the renderer only reads its `body`. -/
structure ServerNoticeMessageEventContent where
  body : String

/-- The tagged union of message content kinds matched by
`RenderableEvent for MessageEvent`. -/
inductive MessageEventContent where
  | Text (t : TextMessageEventContent)
  | Emote (e : EmoteMessageEventContent)
  | Audio (a : AudioMessageEventContent)
  | File (f : FileMessageEventContent)
  | Image (i : ImageMessageEventContent)
  | Location (l : LocationMessageEventContent)
  | Notice (n : NoticeMessageEventContent)
  | Video (v : VideoMessageEventContent)
  | ServerNotice (sn : ServerNoticeMessageEventContent)

/-- A message event; the renderer only reads its `content`. -/
structure MessageEvent where
  content : MessageEventContent

/-- Content of a member event: the membership state transition tag. -/
structure MemberEventContent where
  membership : MembershipState

/-- A member event: its `content.membership` and the raw `state_key`
(the membership-target identifier) are what the renderer reads. -/
structure MemberEvent where
  content : MemberEventContent
  state_key : String

/-- An encrypted event.  Its payload is opaque to the renderer (decryption is
out of scope); we carry it as an uninspected string. -/
structure EncryptedEvent where
  content : String

/-- Capability interface for message content carrying a mandatory plain body
and an optional formatted body (the `HasFormattedBody` trait). -/
class HasFormattedBody (α : Type) where
  body : α → String
  formatted_body : α → Option String

/-- `resolve_body` from the source: return the formatted body if present,
else fall back to the plain body (`formatted_body().unwrap_or_else(body)`). -/
def resolve_body {α : Type} [HasFormattedBody α] (c : α) : String :=
  (HasFormattedBody.formatted_body c).getD (HasFormattedBody.body c)

/-- Capability interface for message content carrying either a direct URL or
an encrypted file (the `HasUrlOrFile` trait). -/
class HasUrlOrFile (α : Type) where
  url : α → Option String
  file : α → Option String

/-- `resolve_url` from the source: `self.url().or_else(self.file()).unwrap()`.
The final unwrap aborts when both are absent; here that failure is a `none`
result. -/
def resolve_url {α : Type} [HasUrlOrFile α] (c : α) : Option String :=
  (HasUrlOrFile.url c).orElse (fun _ => HasUrlOrFile.file c)

instance : HasFormattedBody TextMessageEventContent where
  body c := c.body
  formatted_body c := c.formatted_body

instance : HasFormattedBody EmoteMessageEventContent where
  body c := c.body
  formatted_body c := c.formatted_body

instance : HasFormattedBody NoticeMessageEventContent where
  body c := c.body
  formatted_body c := c.formatted_body

instance : HasUrlOrFile AudioMessageEventContent where
  url c := c.url
  file c := c.file.map (fun f => f.url)

instance : HasUrlOrFile FileMessageEventContent where
  url c := c.url
  file c := c.file.map (fun f => f.url)

instance : HasUrlOrFile ImageMessageEventContent where
  url c := c.url
  file c := c.file.map (fun f => f.url)

instance : HasUrlOrFile VideoMessageEventContent where
  url c := c.url
  file c := c.file.map (fun f => f.url)

/-- `RenderableEvent for EncryptedEvent`: a fixed placeholder line; the
opaque payload is never inspected. -/
def EncryptedEvent.render (_self : EncryptedEvent) (displayname : String) : String :=
  displayname ++ "\t" ++ "Unable to decrypt message"

/-- `RenderableEvent for MemberEvent`: verb chosen by the membership state,
subject taken from the raw `state_key`. -/
def MemberEvent.render (self : MemberEvent) (displayname : String) : String :=
  let operation :=
    match self.content.membership with
    | MembershipState.Join => "joined"
    | MembershipState.Leave => "left"
    | MembershipState.Ban => "banned"
    | MembershipState.Invite => "invited"
    | MembershipState.Knock => "knocked on"
  displayname ++ " (" ++ self.state_key ++ ") has " ++ operation ++ " the room"

/-- `RenderableEvent for MessageEvent`: sub-dispatch over the content kind.
A `none` result models the abort inside `resolve_url` when a media kind has
neither locator. -/
def MessageEvent.render (self : MessageEvent) (displayname : String) : Option String :=
  match self.content with
  | MessageEventContent.Text t => some (displayname ++ "\t" ++ resolve_body t)
  | MessageEventContent.Emote e => some (displayname ++ "\t" ++ resolve_body e)
  | MessageEventContent.Audio a =>
      (resolve_url a).map (fun u => displayname ++ "\t" ++ a.body ++ ": " ++ u)
  | MessageEventContent.File f =>
      (resolve_url f).map (fun u => displayname ++ "\t" ++ f.body ++ ": " ++ u)
  | MessageEventContent.Image i =>
      (resolve_url i).map (fun u => displayname ++ "\t" ++ i.body ++ ": " ++ u)
  | MessageEventContent.Location l =>
      some (displayname ++ "\t" ++ l.body ++ ": " ++ l.geo_uri)
  | MessageEventContent.Notice n => some (displayname ++ "\t" ++ resolve_body n)
  | MessageEventContent.Video v =>
      (resolve_url v).map (fun u => displayname ++ "\t" ++ v.body ++ ": " ++ u)
  | MessageEventContent.ServerNotice sn => some ("SERVER" ++ "\t" ++ sn.body)

end Render

namespace Render

/-- A string of positive length is not the empty string. -/
theorem ne_empty_of_length_pos (s : String) (h : 0 < s.length) : s ≠ "" := by
  intro hc
  rw [hc] at h
  exact absurd h (by decide)

/-- An append whose left part has positive length has positive length. -/
theorem len_pos_append_left (a b : String) (h : 0 < a.length) : 0 < (a ++ b).length := by
  rw [String.length_append]
  omega

/-- An append whose right part has positive length has positive length. -/
theorem len_pos_append_right (a b : String) (h : 0 < b.length) : 0 < (a ++ b).length := by
  rw [String.length_append]
  omega

/-- Claim C1: for every Audio/File/Image/Video content with both the direct
locator (url) and the encrypted-locator-holder (file) absent, resolve_url
fails (modelled as a none result for the source's aborting unwrap); it never
returns an empty or placeholder string. -/
theorem resolve_url_both_absent_fails :
    (∀ a : AudioMessageEventContent, a.url = none → a.file = none → resolve_url a = none) ∧
    (∀ f : FileMessageEventContent, f.url = none → f.file = none → resolve_url f = none) ∧
    (∀ i : ImageMessageEventContent, i.url = none → i.file = none → resolve_url i = none) ∧
    (∀ v : VideoMessageEventContent, v.url = none → v.file = none → resolve_url v = none) := by
  refine ⟨?_, ?_, ?_, ?_⟩ <;>
    · intro c hu hf
      have hdef : resolve_url c = (c.url).orElse (fun _ => c.file.map (fun f => f.url)) := rfl
      rw [hdef, hu, hf]
      rfl

/-- Witness for C1 at a concrete content value with both locators absent. -/
theorem resolve_url_both_absent_fails_witness :
    resolve_url (⟨"song", none, none⟩ : AudioMessageEventContent) = none :=
  resolve_url_both_absent_fails.1 ⟨"song", none, none⟩ rfl rfl

/-- Claim C2: for every Text/Emote/Notice content, resolve_body returns
exactly the formatted body when it is present, and exactly the plain body
when it is absent. -/
theorem resolve_body_prefers_formatted :
    (∀ (t : TextMessageEventContent) (f : String),
        t.formatted_body = some f → resolve_body t = f) ∧
    (∀ t : TextMessageEventContent, t.formatted_body = none → resolve_body t = t.body) ∧
    (∀ (e : EmoteMessageEventContent) (f : String),
        e.formatted_body = some f → resolve_body e = f) ∧
    (∀ e : EmoteMessageEventContent, e.formatted_body = none → resolve_body e = e.body) ∧
    (∀ (n : NoticeMessageEventContent) (f : String),
        n.formatted_body = some f → resolve_body n = f) ∧
    (∀ n : NoticeMessageEventContent, n.formatted_body = none → resolve_body n = n.body) := by
  refine ⟨?_, ?_, ?_, ?_, ?_, ?_⟩
  · intro c f h
    have hdef : resolve_body c = c.formatted_body.getD c.body := rfl
    rw [hdef, h]
    rfl
  · intro c h
    have hdef : resolve_body c = c.formatted_body.getD c.body := rfl
    rw [hdef, h]
    rfl
  · intro c f h
    have hdef : resolve_body c = c.formatted_body.getD c.body := rfl
    rw [hdef, h]
    rfl
  · intro c h
    have hdef : resolve_body c = c.formatted_body.getD c.body := rfl
    rw [hdef, h]
    rfl
  · intro c f h
    have hdef : resolve_body c = c.formatted_body.getD c.body := rfl
    rw [hdef, h]
    rfl
  · intro c h
    have hdef : resolve_body c = c.formatted_body.getD c.body := rfl
    rw [hdef, h]
    rfl

/-- Witness for C2 at concrete contents, one with and one without a
formatted body. -/
theorem resolve_body_prefers_formatted_witness :
    resolve_body (⟨"hi", some "rich"⟩ : TextMessageEventContent) = "rich" ∧
    resolve_body (⟨"hi", none⟩ : TextMessageEventContent) = "hi" :=
  ⟨resolve_body_prefers_formatted.1 ⟨"hi", some "rich"⟩ "rich" rfl,
   resolve_body_prefers_formatted.2.1 ⟨"hi", none⟩ rfl⟩

end Render

namespace Render

/-- Claim C3: for every Audio/File/Image/Video content with at least one
locator present, resolve_url returns exactly the direct url if present, and
otherwise exactly the inner url of the encrypted file holder. -/
theorem resolve_url_present_choice :
    (∀ (a : AudioMessageEventContent) (u : String), a.url = some u → resolve_url a = some u) ∧
    (∀ (a : AudioMessageEventContent) (f : EncryptedFile),
        a.url = none → a.file = some f → resolve_url a = some f.url) ∧
    (∀ (c : FileMessageEventContent) (u : String), c.url = some u → resolve_url c = some u) ∧
    (∀ (c : FileMessageEventContent) (f : EncryptedFile),
        c.url = none → c.file = some f → resolve_url c = some f.url) ∧
    (∀ (i : ImageMessageEventContent) (u : String), i.url = some u → resolve_url i = some u) ∧
    (∀ (i : ImageMessageEventContent) (f : EncryptedFile),
        i.url = none → i.file = some f → resolve_url i = some f.url) ∧
    (∀ (v : VideoMessageEventContent) (u : String), v.url = some u → resolve_url v = some u) ∧
    (∀ (v : VideoMessageEventContent) (f : EncryptedFile),
        v.url = none → v.file = some f → resolve_url v = some f.url) := by
  refine ⟨?_, ?_, ?_, ?_, ?_, ?_, ?_, ?_⟩
  · intro c u h
    have hdef : resolve_url c = (c.url).orElse (fun _ => c.file.map (fun f => f.url)) := rfl
    rw [hdef, h]
    rfl
  · intro c f hu hf
    have hdef : resolve_url c = (c.url).orElse (fun _ => c.file.map (fun f => f.url)) := rfl
    rw [hdef, hu, hf]
    rfl
  · intro c u h
    have hdef : resolve_url c = (c.url).orElse (fun _ => c.file.map (fun f => f.url)) := rfl
    rw [hdef, h]
    rfl
  · intro c f hu hf
    have hdef : resolve_url c = (c.url).orElse (fun _ => c.file.map (fun f => f.url)) := rfl
    rw [hdef, hu, hf]
    rfl
  · intro c u h
    have hdef : resolve_url c = (c.url).orElse (fun _ => c.file.map (fun f => f.url)) := rfl
    rw [hdef, h]
    rfl
  · intro c f hu hf
    have hdef : resolve_url c = (c.url).orElse (fun _ => c.file.map (fun f => f.url)) := rfl
    rw [hdef, hu, hf]
    rfl
  · intro c u h
    have hdef : resolve_url c = (c.url).orElse (fun _ => c.file.map (fun f => f.url)) := rfl
    rw [hdef, h]
    rfl
  · intro c f hu hf
    have hdef : resolve_url c = (c.url).orElse (fun _ => c.file.map (fun f => f.url)) := rfl
    rw [hdef, hu, hf]
    rfl

/-- Witness for C3 at concrete contents: one with a direct url (and even a
competing encrypted holder), one with only the encrypted holder. -/
theorem resolve_url_present_choice_witness :
    resolve_url (⟨"a", some "mxc://direct", some ⟨"mxc://other"⟩⟩ : AudioMessageEventContent)
      = some "mxc://direct" ∧
    resolve_url (⟨"a", none, some ⟨"mxc://enc"⟩⟩ : AudioMessageEventContent)
      = some "mxc://enc" :=
  ⟨resolve_url_present_choice.1 ⟨"a", some "mxc://direct", some ⟨"mxc://other"⟩⟩ "mxc://direct" rfl,
   resolve_url_present_choice.2.1 ⟨"a", none, some ⟨"mxc://enc"⟩⟩ ⟨"mxc://enc"⟩ rfl rfl⟩

/-- Claim C4: render of a message event is, per kind:
Text/Emote/Notice give displayname, a tab, and the resolved body;
Audio/File/Image/Video give displayname, a tab, the body, a colon-space, and
the resolved locator; Location gives displayname, a tab, the body, a
colon-space, and the verbatim geo URI. -/
theorem message_render_formats (d : String) :
    (∀ t : TextMessageEventContent,
        MessageEvent.render ⟨MessageEventContent.Text t⟩ d
          = some (d ++ "\t" ++ resolve_body t)) ∧
    (∀ e : EmoteMessageEventContent,
        MessageEvent.render ⟨MessageEventContent.Emote e⟩ d
          = some (d ++ "\t" ++ resolve_body e)) ∧
    (∀ n : NoticeMessageEventContent,
        MessageEvent.render ⟨MessageEventContent.Notice n⟩ d
          = some (d ++ "\t" ++ resolve_body n)) ∧
    (∀ (a : AudioMessageEventContent) (u : String), resolve_url a = some u →
        MessageEvent.render ⟨MessageEventContent.Audio a⟩ d
          = some (d ++ "\t" ++ a.body ++ ": " ++ u)) ∧
    (∀ (c : FileMessageEventContent) (u : String), resolve_url c = some u →
        MessageEvent.render ⟨MessageEventContent.File c⟩ d
          = some (d ++ "\t" ++ c.body ++ ": " ++ u)) ∧
    (∀ (i : ImageMessageEventContent) (u : String), resolve_url i = some u →
        MessageEvent.render ⟨MessageEventContent.Image i⟩ d
          = some (d ++ "\t" ++ i.body ++ ": " ++ u)) ∧
    (∀ (v : VideoMessageEventContent) (u : String), resolve_url v = some u →
        MessageEvent.render ⟨MessageEventContent.Video v⟩ d
          = some (d ++ "\t" ++ v.body ++ ": " ++ u)) ∧
    (∀ l : LocationMessageEventContent,
        MessageEvent.render ⟨MessageEventContent.Location l⟩ d
          = some (d ++ "\t" ++ l.body ++ ": " ++ l.geo_uri)) := by
  refine ⟨fun _ => rfl, fun _ => rfl, fun _ => rfl, ?_, ?_, ?_, ?_, fun _ => rfl⟩
  · intro a u h
    have hdef : MessageEvent.render ⟨MessageEventContent.Audio a⟩ d
        = (resolve_url a).map (fun u => d ++ "\t" ++ a.body ++ ": " ++ u) := rfl
    rw [hdef, h]
    rfl
  · intro c u h
    have hdef : MessageEvent.render ⟨MessageEventContent.File c⟩ d
        = (resolve_url c).map (fun u => d ++ "\t" ++ c.body ++ ": " ++ u) := rfl
    rw [hdef, h]
    rfl
  · intro i u h
    have hdef : MessageEvent.render ⟨MessageEventContent.Image i⟩ d
        = (resolve_url i).map (fun u => d ++ "\t" ++ i.body ++ ": " ++ u) := rfl
    rw [hdef, h]
    rfl
  · intro v u h
    have hdef : MessageEvent.render ⟨MessageEventContent.Video v⟩ d
        = (resolve_url v).map (fun u => d ++ "\t" ++ v.body ++ ": " ++ u) := rfl
    rw [hdef, h]
    rfl

/-- Witness for C4: a concrete Text message (the spec's own example) and a
concrete Audio message whose locator hypothesis is discharged by evaluation. -/
theorem message_render_formats_witness :
    MessageEvent.render ⟨MessageEventContent.Text ⟨"hi", none⟩⟩ "Alice" = some "Alice\thi" ∧
    MessageEvent.render ⟨MessageEventContent.Audio ⟨"song", some "mxc://a", none⟩⟩ "Alice"
      = some "Alice\tsong: mxc://a" :=
  ⟨(message_render_formats "Alice").1 ⟨"hi", none⟩,
   (message_render_formats "Alice").2.2.2.1 ⟨"song", some "mxc://a", none⟩ "mxc://a" rfl⟩

end Render

namespace Render

/-- Claim C5: a member event renders as the displayname, the raw state_key
subject in parentheses, and the verb of the total mapping Join to "joined",
Leave to "left", Ban to "banned", Invite to "invited", Knock to "knocked on",
in the sentence "displayname (subject) has verb the room". -/
theorem member_render_verbs (d subject : String) :
    MemberEvent.render ⟨⟨MembershipState.Join⟩, subject⟩ d
      = d ++ " (" ++ subject ++ ") has " ++ "joined" ++ " the room" ∧
    MemberEvent.render ⟨⟨MembershipState.Leave⟩, subject⟩ d
      = d ++ " (" ++ subject ++ ") has " ++ "left" ++ " the room" ∧
    MemberEvent.render ⟨⟨MembershipState.Ban⟩, subject⟩ d
      = d ++ " (" ++ subject ++ ") has " ++ "banned" ++ " the room" ∧
    MemberEvent.render ⟨⟨MembershipState.Invite⟩, subject⟩ d
      = d ++ " (" ++ subject ++ ") has " ++ "invited" ++ " the room" ∧
    MemberEvent.render ⟨⟨MembershipState.Knock⟩, subject⟩ d
      = d ++ " (" ++ subject ++ ") has " ++ "knocked on" ++ " the room" :=
  ⟨rfl, rfl, rfl, rfl, rfl⟩

/-- Claim C6: a ServerNotice renders as the fixed "SERVER" tag, a tab, and
the body; the caller-supplied displayname has no effect on the output. -/
theorem server_notice_render_fixed (sn : ServerNoticeMessageEventContent) (d₁ d₂ : String) :
    MessageEvent.render ⟨MessageEventContent.ServerNotice sn⟩ d₁
      = some ("SERVER" ++ "\t" ++ sn.body) ∧
    MessageEvent.render ⟨MessageEventContent.ServerNotice sn⟩ d₁
      = MessageEvent.render ⟨MessageEventContent.ServerNotice sn⟩ d₂ :=
  ⟨rfl, rfl⟩

/-- Claim C7: an encrypted (undecryptable) event renders as the displayname,
a tab, and the fixed placeholder "Unable to decrypt message"; the opaque
payload is never inspected, so the output depends only on the displayname. -/
theorem encrypted_render_fixed (e₁ e₂ : EncryptedEvent) (d : String) :
    EncryptedEvent.render e₁ d = d ++ "\t" ++ "Unable to decrypt message" ∧
    EncryptedEvent.render e₁ d = EncryptedEvent.render e₂ d :=
  ⟨rfl, rfl⟩

/-- Claim C8: a Text content and an Emote content carrying the same plain
body and the same optional formatted body render identically, for every
displayname. -/
theorem emote_renders_like_text (body : String) (fb : Option String) (d : String) :
    MessageEvent.render ⟨MessageEventContent.Text ⟨body, fb⟩⟩ d
      = MessageEvent.render ⟨MessageEventContent.Emote ⟨body, fb⟩⟩ d :=
  rfl

/-- Claim C10: when the formatted body is present but equal to the empty
string, resolve_body returns that empty formatted body rather than falling
back to the plain body; presence alone decides the choice. -/
theorem resolve_body_empty_formatted (b : String) :
    resolve_body (⟨b, some ""⟩ : TextMessageEventContent) = "" ∧
    resolve_body (⟨b, some ""⟩ : EmoteMessageEventContent) = "" ∧
    resolve_body (⟨b, some ""⟩ : NoticeMessageEventContent) = "" :=
  ⟨rfl, rfl, rfl⟩

end Render

namespace Render

/-- Claim C9: every rendered line is a non-empty string — for encrypted
events, member events, and every message kind that produces a line, with any
displayname and any (possibly empty) bodies. -/
theorem render_never_empty :
    (∀ (e : EncryptedEvent) (d : String), EncryptedEvent.render e d ≠ "") ∧
    (∀ (m : MemberEvent) (d : String), MemberEvent.render m d ≠ "") ∧
    (∀ (ev : MessageEvent) (d s : String),
        MessageEvent.render ev d = some s → s ≠ "") := by
  refine ⟨?_, ?_, ?_⟩
  · intro e d
    exact ne_empty_of_length_pos _ (len_pos_append_right _ _ (by decide))
  · intro m d
    obtain ⟨⟨ms⟩, key⟩ := m
    cases ms <;>
      exact ne_empty_of_length_pos _ (len_pos_append_right _ _ (by decide))
  · intro ev d s h
    obtain ⟨c⟩ := ev
    cases c with
    | Text t =>
        have hs : d ++ "\t" ++ resolve_body t = s := by
          simpa [MessageEvent.render] using h
        subst hs
        exact ne_empty_of_length_pos _
          (len_pos_append_left _ _ (len_pos_append_right _ _ (by decide)))
    | Emote e =>
        have hs : d ++ "\t" ++ resolve_body e = s := by
          simpa [MessageEvent.render] using h
        subst hs
        exact ne_empty_of_length_pos _
          (len_pos_append_left _ _ (len_pos_append_right _ _ (by decide)))
    | Notice n =>
        have hs : d ++ "\t" ++ resolve_body n = s := by
          simpa [MessageEvent.render] using h
        subst hs
        exact ne_empty_of_length_pos _
          (len_pos_append_left _ _ (len_pos_append_right _ _ (by decide)))
    | Audio a =>
        simp only [MessageEvent.render] at h
        rcases hu : resolve_url a with _ | u
        · rw [hu] at h
          simp at h
        · rw [hu] at h
          have hs : d ++ "\t" ++ a.body ++ ": " ++ u = s := by
            simpa using h
          subst hs
          exact ne_empty_of_length_pos _
            (len_pos_append_left _ _ (len_pos_append_right _ _ (by decide)))
    | File c =>
        simp only [MessageEvent.render] at h
        rcases hu : resolve_url c with _ | u
        · rw [hu] at h
          simp at h
        · rw [hu] at h
          have hs : d ++ "\t" ++ c.body ++ ": " ++ u = s := by
            simpa using h
          subst hs
          exact ne_empty_of_length_pos _
            (len_pos_append_left _ _ (len_pos_append_right _ _ (by decide)))
    | Image i =>
        simp only [MessageEvent.render] at h
        rcases hu : resolve_url i with _ | u
        · rw [hu] at h
          simp at h
        · rw [hu] at h
          have hs : d ++ "\t" ++ i.body ++ ": " ++ u = s := by
            simpa using h
          subst hs
          exact ne_empty_of_length_pos _
            (len_pos_append_left _ _ (len_pos_append_right _ _ (by decide)))
    | Video v =>
        simp only [MessageEvent.render] at h
        rcases hu : resolve_url v with _ | u
        · rw [hu] at h
          simp at h
        · rw [hu] at h
          have hs : d ++ "\t" ++ v.body ++ ": " ++ u = s := by
            simpa using h
          subst hs
          exact ne_empty_of_length_pos _
            (len_pos_append_left _ _ (len_pos_append_right _ _ (by decide)))
    | Location l =>
        have hs : d ++ "\t" ++ l.body ++ ": " ++ l.geo_uri = s := by
          simpa [MessageEvent.render] using h
        subst hs
        exact ne_empty_of_length_pos _
          (len_pos_append_left _ _ (len_pos_append_right _ _ (by decide)))
    | ServerNotice sn =>
        have hs : "SERVER" ++ "\t" ++ sn.body = s := by
          simpa [MessageEvent.render] using h
        subst hs
        exact ne_empty_of_length_pos _
          (len_pos_append_left _ _ (by decide))

/-- Witness for C9: the rendered line of a concrete Text message, shown
non-empty by applying the theorem with the rendering hypothesis discharged
by evaluation. -/
theorem render_never_empty_witness : ("Alice" ++ "\t" ++ "hi" : String) ≠ "" :=
  render_never_empty.2.2 ⟨MessageEventContent.Text ⟨"hi", none⟩⟩ "Alice"
    ("Alice" ++ "\t" ++ "hi") rfl

end Render
